import Mathlib

/-!
Shallow embedding of `src/cbp/cbp.py` (County Business Patterns data access).

The source module defines two module-level lookup dictionaries
(`emp_imputation`, `naics_year`) and a `Counties` class (a pandas `DataFrame`
subclass) with a constructor that reads from the Census API or a CSV file,
and five query methods: `get_county`, `two_digit`, `three_digit`,
`four_digit`, `total`.

Modelling decisions:
* A table row is a structure `Row` with the columns of the default variable
  list (`EMP,EMP_F,ESTAB,NAICS2012,NAICS2012_TTL,GEO_TTL` plus the `state`
  and `county` columns appended by the Census geography clause).  Per the
  data model, API cell values arrive as strings and the constructor casts
  `EMP`/`ESTAB` to `int`; rows are modelled post-cast, with `Int` fields for
  the counts and `String` for the code/title columns.  `RawRow` is the row
  as fetched (it still carries the `EMP_F` flag column); `Row` is the row
  after the constructor drops `EMP_F`.
* A `Dataset` is the list of rows together with the list of column names,
  so that dropping the `EMP_F` column is observable in the model.
* HTTP transport, JSON parsing and CSV parsing are external collaborators:
  the constructor model receives the already-parsed API rows (`apiData`)
  and the already-parsed CSV table (`fileData`) as parameters.  The
  configuration checks in the source precede the network call / file read,
  so in the model a configuration error is independent of those parameters.
* Python dynamic typing of the `county` selector argument is modelled by
  the inductive `PyVal` (None, str, list of str, set of str, int), with
  Python truthiness `pyTruthy`.  `isinstance(x, list)` holds only for
  `vList`, `isinstance(x, str)` only for `vStr`.
* `raise ValueError` / `KeyError` / `TypeError` become `Except PyError`.
* `total`'s `groupby('NAICS2012').agg(sum)` is modelled as: one output row
  per distinct `NAICS2012` value, carrying the sums of `EMP` and `ESTAB`
  over the rows with that value.  (pandas sorts the group keys; the model
  uses `List.dedup` order instead, since no claim depends on row order.)
* Python methods are additionally embedded in state-passing style
  (`*_method`), returning the post-call `self` together with the result;
  none of the source methods performs an in-place operation on `self`, so
  the threaded `self` is unchanged.
-/

namespace CBP

/-- Python exception kinds raised by `cbp.py`:
`ValueError` for configuration problems, `KeyError` for a failed dictionary
lookup, `TypeError` for a bad county selector. -/
inductive PyError where
  | valueError
  | keyError
  | typeError
deriving DecidableEq, Repr

/-- `emp_imputation` dictionary (cbp.py lines 6-17), as a partial lookup:
`none` models a `KeyError` on absent keys. -/
def emp_imputation (flag : String) : Option Int :=
  match flag with
  | "a" => some 10
  | "b" => some 60
  | "c" => some 175
  | "e" => some 375
  | "f" => some 750
  | "g" => some 1750
  | "h" => some 3750
  | "i" => some 7500
  | "j" => some 17500
  | "k" => some 37500
  | "l" => some 75000
  | "m" => some 110000
  | _ => none

/-- `naics_year` dictionary (cbp.py lines 19-27). -/
def naics_year (year : Int) : Option String :=
  if year = 2014 then some "NAICS2012"
  else if year = 2013 then some "NAICS2012"
  else if year = 2012 then some "NAICS2012"
  else if year = 2011 then some "NAICS2007"
  else if year = 2010 then some "NAICS2007"
  else if year = 2009 then some "NAICS2007"
  else if year = 2008 then some "NAICS2007"
  else none

/-- A row as fetched from the API with the default variable list, after the
constructor's `astype(int)` casts of `EMP` and `ESTAB`; still carries the
`EMP_F` suppression-flag column. -/
structure RawRow where
  emp : Int
  emp_f : String
  estab : Int
  naics2012 : String
  naics2012_ttl : String
  geo_ttl : String
  state : String
  county : String
deriving DecidableEq, Repr

/-- A row of a constructed `Counties` frame: the `EMP_F` column has been
dropped. -/
structure Row where
  emp : Int
  estab : Int
  naics2012 : String
  naics2012_ttl : String
  geo_ttl : String
  state : String
  county : String
deriving DecidableEq, Repr

/-- A `Counties` DataFrame: its column names and its rows. -/
structure Dataset where
  cols : List String
  rows : List Row
deriving DecidableEq, Repr

/-- A Python value passed as the `county` selector (or as `key`/`filepath`):
the dynamic types the source code distinguishes. -/
inductive PyVal where
  | vNone
  | vStr (s : String)
  | vList (l : List String)
  | vSet (l : List String)
  | vInt (n : Int)
deriving DecidableEq, Repr

/-- Python truthiness of a `PyVal` (`if county:` in the source). -/
def pyTruthy : PyVal → Bool
  | .vNone => false
  | .vStr s => s != ""
  | .vList l => !l.isEmpty
  | .vSet l => !l.isEmpty
  | .vInt n => n != 0

/-- Truthiness of an optional string parameter (`if not key:`,
`if not filepath:`): `None` and the empty string are falsy. -/
def optTruthy : Option String → Bool
  | none => false
  | some s => s != ""

/-- Literal containment of `-` in a string (`NAICS2012.str.contains('-')`
with a one-character, regex-neutral pattern): membership of the character
in the string's characters. -/
def containsDash (s : String) : Bool :=
  s.data.contains '-'

/-- Column names of the API result for the default variable list, in request
order, followed by the geography columns the Census API appends. -/
def apiCols : List String :=
  ["EMP", "EMP_F", "ESTAB", "NAICS2012", "NAICS2012_TTL", "GEO_TTL",
   "state", "county"]

/-- One row of the imputation step (cbp.py line 99):
`emp_imputation[x.EMP_F] if x.EMP_F else x.EMP`.  A non-empty flag that is
not a key of the table raises `KeyError`. -/
def imputeEmp (r : RawRow) : Except PyError Int :=
  if r.emp_f = "" then
    .ok r.emp
  else
    match emp_imputation r.emp_f with
    | some v => .ok v
    | none => .error .keyError

/-- Dropping the `EMP_F` column from a raw row, with `emp` the (possibly
imputed) employment value (cbp.py line 101). -/
def dropFlag (r : RawRow) (emp : Int) : Row :=
  { emp := emp, estab := r.estab, naics2012 := r.naics2012,
    naics2012_ttl := r.naics2012_ttl, geo_ttl := r.geo_ttl,
    state := r.state, county := r.county }

/-- The imputation pass over the whole frame (cbp.py line 99,
`data.apply(..., axis=1)`, followed by the `EMP_F` drop of line 101):
per-row `imputeEmp`, propagating the first raised `KeyError`. -/
def imputeRows : List RawRow → Except PyError (List Row)
  | [] => .ok []
  | r :: rest =>
    match imputeEmp r with
    | .error e => .error e
    | .ok v =>
      match imputeRows rest with
      | .error e => .error e
      | .ok rs => .ok (dropFlag r v :: rs)

/-- `Counties.__init__` (cbp.py lines 54-113), for the default variable
list.  `apiData` stands for the parsed rows of a successful API response,
`fileData` for the parsed CSV table; configuration checks precede the
fetch/read in the source, so a configuration error does not depend on
them. -/
def counties_init (read_from : String) (key : Option String)
    (filepath : Option String) (impute_emp : Bool)
    (apiData : List RawRow) (fileData : Dataset) : Except PyError Dataset :=
  if read_from = "api" then
    if !optTruthy key then
      .error .valueError
    else
      let imputed : Except PyError (List Row) :=
        if impute_emp then
          imputeRows apiData
        else
          .ok (apiData.map fun r => dropFlag r r.emp)
      match imputed with
      | .error e => .error e
      | .ok rs => .ok ⟨apiCols.erase "EMP_F", rs⟩
  else if read_from = "csv" then
    if !optTruthy filepath then
      .error .valueError
    else
      .ok fileData
  else
    .error .valueError

/-- `Counties.get_county` (cbp.py lines 115-136): `isinstance(county, list)`
selects membership filtering, `isinstance(county, str)` equality filtering,
anything else raises `TypeError`. -/
def get_county (d : Dataset) (county : PyVal) : Except PyError Dataset :=
  match county with
  | .vList l => .ok ⟨d.cols, d.rows.filter fun r => l.contains r.county⟩
  | .vStr s => .ok ⟨d.cols, d.rows.filter fun r => r.county == s⟩
  | _ => .error .typeError

/-- Row predicate of `two_digit` (cbp.py lines 152-153):
`NAICS2012.str.len() == 2` or `NAICS2012.str.contains('-')`. -/
def twoDigitPred (r : Row) : Bool :=
  r.naics2012.length == 2 || containsDash r.naics2012

/-- Row predicate of `three_digit` (cbp.py line 181):
`NAICS2012.str.len() == 3` or `NAICS2012 == '00'`. -/
def threeDigitPred (r : Row) : Bool :=
  r.naics2012.length == 3 || r.naics2012 == "00"

/-- Row predicate of `four_digit` (cbp.py line 209):
`NAICS2012.str.len() == 4` or `NAICS2012 == '00'`. -/
def fourDigitPred (r : Row) : Bool :=
  r.naics2012.length == 4 || r.naics2012 == "00"

/-- Shared tail of the three digit-length methods (cbp.py lines 155-165 and
analogues): `if county:` then dispatch on the selector's dynamic type,
else return the digit-filtered frame unfiltered. -/
def countyTail (filtered : Dataset) (county : PyVal) : Except PyError Dataset :=
  if pyTruthy county then
    match county with
    | .vList l =>
        .ok ⟨filtered.cols, filtered.rows.filter fun r => l.contains r.county⟩
    | .vStr s =>
        .ok ⟨filtered.cols, filtered.rows.filter fun r => r.county == s⟩
    | _ => .error .typeError
  else
    .ok filtered

/-- `Counties.two_digit` (cbp.py lines 138-165). -/
def two_digit (d : Dataset) (county : PyVal) : Except PyError Dataset :=
  countyTail ⟨d.cols, d.rows.filter twoDigitPred⟩ county

/-- `Counties.three_digit` (cbp.py lines 167-193). -/
def three_digit (d : Dataset) (county : PyVal) : Except PyError Dataset :=
  countyTail ⟨d.cols, d.rows.filter threeDigitPred⟩ county

/-- `Counties.four_digit` (cbp.py lines 195-221). -/
def four_digit (d : Dataset) (county : PyVal) : Except PyError Dataset :=
  countyTail ⟨d.cols, d.rows.filter fourDigitPred⟩ county

/-- One row of the frame returned by `Counties.total`: the `NAICS2012`
group key and the summed `EMP` and `ESTAB` columns. -/
structure TotalRow where
  naics2012 : String
  emp : Int
  estab : Int
deriving DecidableEq, Repr

/-- Sum of `EMP` over the rows of `d` whose `NAICS2012` equals `c`. -/
def empSum (rows : List Row) (c : String) : Int :=
  ((rows.filter fun r => r.naics2012 == c).map Row.emp).sum

/-- Sum of `ESTAB` over the rows of `d` whose `NAICS2012` equals `c`. -/
def estabSum (rows : List Row) (c : String) : Int :=
  ((rows.filter fun r => r.naics2012 == c).map Row.estab).sum

/-- `Counties.total` (cbp.py lines 223-239): group by `NAICS2012` and sum
`EMP` and `ESTAB` within each group; one output row per distinct
`NAICS2012` value occurring in the frame. -/
def total (d : Dataset) : List TotalRow :=
  ((d.rows.map Row.naics2012).dedup).map fun c =>
    ⟨c, empSum d.rows c, estabSum d.rows c⟩

/-- `get_county` as a Python method call in state-passing style: the first
component is `self` after the call (the method body only reads `self`). -/
def get_county_method (d : Dataset) (county : PyVal) :
    Dataset × Except PyError Dataset :=
  (d, get_county d county)

/-- `two_digit` as a method call in state-passing style. -/
def two_digit_method (d : Dataset) (county : PyVal) :
    Dataset × Except PyError Dataset :=
  (d, two_digit d county)

/-- `three_digit` as a method call in state-passing style. -/
def three_digit_method (d : Dataset) (county : PyVal) :
    Dataset × Except PyError Dataset :=
  (d, three_digit d county)

/-- `four_digit` as a method call in state-passing style. -/
def four_digit_method (d : Dataset) (county : PyVal) :
    Dataset × Except PyError Dataset :=
  (d, four_digit d county)

/-- `total` as a method call in state-passing style. -/
def total_method (d : Dataset) : Dataset × List TotalRow :=
  (d, total d)

/-! ### Concrete fixtures used by witnesses and counterexamples -/

/-- A constructed row with fixed title/state fields. -/
def testRow (county naics : String) (emp estab : Int) : Row :=
  { emp := emp, estab := estab, naics2012 := naics,
    naics2012_ttl := "title", geo_ttl := "geo", state := "42",
    county := county }

/-- A raw API row with the given flag and employment value. -/
def testRawRow (flag : String) (emp : Int) : RawRow :=
  { emp := emp, emp_f := flag, estab := 1, naics2012 := "11",
    naics2012_ttl := "title", geo_ttl := "geo", state := "42",
    county := "013" }

/-- The column list of a constructed API-mode frame. -/
def builtCols : List String := apiCols.erase "EMP_F"

/-- A dataset whose industry codes are exactly
`{"00", "11", "113", "1133", "31-33"}`. -/
def fiveCodesData : Dataset :=
  ⟨builtCols,
   [testRow "013" "00" 100 10, testRow "013" "11" 5 1,
    testRow "013" "113" 3 1, testRow "013" "1133" 2 1,
    testRow "013" "31-33" 7 2]⟩

/-- A dataset with one row whose industry code is a three-character range
token. -/
def rangeRowData : Dataset :=
  ⟨builtCols, [testRow "013" "1-3" 4 1]⟩

/-- A dataset with counties `"013"` and `"015"`, both rows with industry
code `"11"`, employment 5 and 7, establishments 1 and 2. -/
def twoCountyData : Dataset :=
  ⟨builtCols, [testRow "013" "11" 5 1, testRow "015" "11" 7 2]⟩

/-- API rows for the imputation witness: one suppressed row (flag `a`) and
one reported row (no flag). -/
def impApiData : List RawRow := [testRawRow "a" 0, testRawRow "" 42]

/-- The frame `counties_init` builds from `impApiData`. -/
def impResult : Dataset :=
  ⟨builtCols, [dropFlag (testRawRow "a" 0) 10, dropFlag (testRawRow "" 42) 42]⟩

/-- A raw row with a flag (`d`) that is not a key of `emp_imputation`. -/
def badFlagRow : RawRow := testRawRow "d" 0

/-- An empty CSV table, for constructor calls where the CSV branch is not
taken. -/
def emptyData : Dataset := ⟨[], []⟩

/-! ### Helper lemmas -/

/-- The only exception `imputeEmp` raises is `KeyError`. -/
theorem imputeEmp_error_eq {r : RawRow} {e : PyError}
    (h : imputeEmp r = .error e) : e = .keyError := by
  unfold imputeEmp at h
  split at h
  · simp at h
  · split at h
    · simp at h
    · injection h with h
      exact h.symm

/-- The only exception `imputeRows` raises is `KeyError`. -/
theorem imputeRows_error_eq :
    ∀ {l : List RawRow} {e : PyError}, imputeRows l = .error e →
      e = PyError.keyError := by
  intro l
  induction l with
  | nil => intro e h; simp [imputeRows] at h
  | cons x rest ih =>
    intro e h
    cases hx : imputeEmp x with
    | error e' =>
      simp [imputeRows, hx] at h
      exact h.symm ▸ imputeEmp_error_eq hx
    | ok v =>
      cases hrest : imputeRows rest with
      | error e' =>
        simp [imputeRows, hx, hrest] at h
        exact h.symm ▸ ih hrest
      | ok rs => simp [imputeRows, hx, hrest] at h

/-- If some row's imputation raises, the whole pass raises `KeyError`. -/
theorem imputeRows_fails :
    ∀ (l : List RawRow) (r : RawRow), r ∈ l →
      imputeEmp r = .error .keyError →
      imputeRows l = .error .keyError := by
  intro l
  induction l with
  | nil => intro r hr _; cases hr
  | cons x rest ih =>
    intro r hr hfail
    rcases List.mem_cons.mp hr with h | h
    · subst h
      simp [imputeRows, hfail]
    · cases hx : imputeEmp x with
      | error e =>
        have he := imputeEmp_error_eq hx
        subst he
        simp [imputeRows, hx]
      | ok v =>
        simp [imputeRows, hx, ih r h hfail]

/-- A successful imputation pass is pointwise: same length, and each output
row is the input row with the flag dropped and the employment either
imputed or carried over. -/
theorem imputeRows_ok_spec :
    ∀ (l : List RawRow) (rs : List Row), imputeRows l = .ok rs →
      rs.length = l.length ∧
      ∀ p ∈ l.zip rs, ∃ v, imputeEmp p.1 = .ok v ∧ p.2 = dropFlag p.1 v := by
  intro l
  induction l with
  | nil =>
    intro rs h
    simp [imputeRows] at h
    subst h
    simp
  | cons x rest ih =>
    intro rs h
    cases hx : imputeEmp x with
    | error e => simp [imputeRows, hx] at h
    | ok v =>
      cases hrest : imputeRows rest with
      | error e => simp [imputeRows, hx, hrest] at h
      | ok rs' =>
        simp [imputeRows, hx, hrest] at h
        subst h
        obtain ⟨hlen, hzip⟩ := ih rs' hrest
        refine ⟨by simp [hlen], ?_⟩
        intro p hp
        rw [List.zip_cons_cons] at hp
        rcases List.mem_cons.mp hp with h | h
        · subst h
          exact ⟨v, hx, rfl⟩
        · exact hzip p h

/-! ### Claim theorems -/

/-- C5: construction fails with a `ValueError` (ConfigurationError-kind),
independently of any fetched or read data, exactly when: the mode is
`api` and the key is absent/falsy, the mode is `csv` and the filepath is
absent/falsy, or the mode is neither `api` nor `csv`.  With a truthy key
(resp. filepath) the respective mode never raises `ValueError`. -/
theorem init_config_errors (key filepath : Option String) (impute : Bool)
    (apiData : List RawRow) (fileData : Dataset) :
    (optTruthy key = false →
      counties_init "api" key filepath impute apiData fileData =
        .error .valueError) ∧
    (optTruthy filepath = false →
      counties_init "csv" key filepath impute apiData fileData =
        .error .valueError) ∧
    (∀ mode : String, mode ≠ "api" → mode ≠ "csv" →
      counties_init mode key filepath impute apiData fileData =
        .error .valueError) ∧
    (optTruthy key = true →
      counties_init "api" key filepath impute apiData fileData ≠
        .error .valueError) ∧
    (optTruthy filepath = true →
      counties_init "csv" key filepath impute apiData fileData ≠
        .error .valueError) := by
  refine ⟨?_, ?_, ?_, ?_, ?_⟩
  · intro hk
    simp [counties_init, hk]
  · intro hf
    simp [counties_init, hf]
  · intro mode h1 h2
    simp [counties_init, h1, h2]
  · intro hk
    unfold counties_init
    rw [if_pos rfl, hk]
    simp only [Bool.not_true, Bool.false_eq_true, if_false]
    cases impute with
    | true =>
      simp only [if_true]
      cases him : imputeRows apiData with
      | error e =>
        have he := imputeRows_error_eq him
        subst he
        simp
      | ok rs => simp
    | false => simp
  · intro hf
    unfold counties_init
    rw [if_neg (by decide), if_pos rfl, hf]
    simp

/-- C5 witness: concrete configuration failures in all three cases. -/
theorem init_config_errors_witness :
    counties_init "api" none none true [] emptyData = .error .valueError ∧
    counties_init "csv" (some "k") none true [] emptyData =
      .error .valueError ∧
    counties_init "xml" (some "k") (some "f") true [] emptyData =
      .error .valueError :=
  ⟨(init_config_errors none none true [] emptyData).1 rfl,
   (init_config_errors (some "k") none true [] emptyData).2.1 rfl,
   (init_config_errors (some "k") (some "f") true [] emptyData).2.2.1
     "xml" (by decide) (by decide)⟩

/-- C1: a successful API-mode construction with imputation enabled yields a
frame with no `EMP_F` column and one row per fetched row, where a row with
a non-empty flag carries the imputation table's value for that flag and a
row with an empty flag carries the fetched employment value unchanged. -/
theorem api_imputation_spec (key filepath : Option String)
    (apiData : List RawRow) (fileData : Dataset) (d : Dataset)
    (h : counties_init "api" key filepath true apiData fileData = .ok d) :
    "EMP_F" ∉ d.cols ∧
    d.rows.length = apiData.length ∧
    ∀ p ∈ apiData.zip d.rows,
      (p.1.emp_f ≠ "" → emp_imputation p.1.emp_f = some p.2.emp) ∧
      (p.1.emp_f = "" → p.2.emp = p.1.emp) := by
  unfold counties_init at h
  rw [if_pos rfl] at h
  cases hk : optTruthy key with
  | false =>
    rw [hk] at h
    simp at h
  | true =>
    rw [hk] at h
    simp only [Bool.not_true, Bool.false_eq_true, if_false, if_true] at h
    cases him : imputeRows apiData with
    | error e =>
      rw [him] at h
      simp at h
    | ok rs =>
      rw [him] at h
      simp only [Except.ok.injEq] at h
      subst h
      obtain ⟨hlen, hzip⟩ := imputeRows_ok_spec apiData rs him
      refine ⟨?_, hlen, ?_⟩
      · show "EMP_F" ∉ apiCols.erase "EMP_F"
        decide
      intro p hp
      obtain ⟨v, hv, hdrop⟩ := hzip p hp
      constructor
      · intro hne
        unfold imputeEmp at hv
        rw [if_neg hne] at hv
        cases hm : emp_imputation p.1.emp_f with
        | none =>
          rw [hm] at hv
          simp at hv
        | some w =>
          rw [hm] at hv
          injection hv with hv
          rw [hdrop]
          exact congrArg some hv
      · intro heq
        unfold imputeEmp at hv
        rw [if_pos heq] at hv
        injection hv with hv
        rw [hdrop]
        exact hv.symm

/-- C1 witness: constructing from one suppressed row (flag `a`) and one
reported row yields employment 10 and 42 respectively, with the flag
column gone. -/
theorem api_imputation_spec_witness :
    "EMP_F" ∉ impResult.cols ∧
    impResult.rows.length = impApiData.length ∧
    ∀ p ∈ impApiData.zip impResult.rows,
      (p.1.emp_f ≠ "" → emp_imputation p.1.emp_f = some p.2.emp) ∧
      (p.1.emp_f = "" → p.2.emp = p.1.emp) :=
  api_imputation_spec (some "k") none impApiData emptyData impResult rfl

/-- C9: the imputation lookup is partial: any input containing a row with a
non-empty flag outside the table makes API-mode construction fail with a
`KeyError` instead of producing a frame. -/
theorem api_unknown_flag_fails (key filepath : Option String)
    (apiData : List RawRow) (fileData : Dataset) (r : RawRow)
    (hk : optTruthy key = true) (hr : r ∈ apiData)
    (hflag : r.emp_f ≠ "") (hmiss : emp_imputation r.emp_f = none) :
    counties_init "api" key filepath true apiData fileData =
      .error .keyError := by
  have hfail : imputeEmp r = .error .keyError := by
    unfold imputeEmp
    rw [if_neg hflag, hmiss]
  have him := imputeRows_fails apiData r hr hfail
  unfold counties_init
  rw [if_pos rfl, hk]
  simp [him]

/-- C9 witness: a row flagged `d` (not an imputation key) makes the
construction raise `KeyError`. -/
theorem api_unknown_flag_fails_witness :
    counties_init "api" (some "k") none true [badFlagRow] emptyData =
      .error .keyError :=
  api_unknown_flag_fails (some "k") none [badFlagRow] emptyData badFlagRow
    rfl (by decide) (by decide) rfl

/-- C7: each query method, viewed as a state-passing call, returns `self`
unchanged alongside its result. -/
theorem query_methods_pure (d : Dataset) (v : PyVal) :
    (get_county_method d v).1 = d ∧
    (two_digit_method d v).1 = d ∧
    (three_digit_method d v).1 = d ∧
    (four_digit_method d v).1 = d ∧
    (total_method d).1 = d :=
  ⟨rfl, rfl, rfl, rfl, rfl⟩

/-- C8 counterexample: year 2009 maps to the 2007 revision label, not the
2012 revision label, refuting "every year in 2009–2014 maps to the 2012
revision". -/
theorem naics_year_2009_counterexample :
    naics_year 2009 = some "NAICS2007" ∧
    (some "NAICS2007" : Option String) ≠ some "NAICS2012" := by
  exact ⟨rfl, by decide⟩

/-- C8 amended: years 2008–2011 map to the 2007 revision label and years
2012–2014 map to the 2012 revision label. -/
theorem naics_year_vintage (y : Int) :
    (2008 ≤ y → y ≤ 2011 → naics_year y = some "NAICS2007") ∧
    (2012 ≤ y → y ≤ 2014 → naics_year y = some "NAICS2012") := by
  constructor
  · intro h1 h2
    have hy : y = 2008 ∨ y = 2009 ∨ y = 2010 ∨ y = 2011 := by omega
    rcases hy with h | h | h | h <;> subst h <;> rfl
  · intro h1 h2
    have hy : y = 2012 ∨ y = 2013 ∨ y = 2014 := by omega
    rcases hy with h | h | h <;> subst h <;> rfl

/-- C8 amended witness: the vintage mapping at years 2010 and 2013. -/
theorem naics_year_vintage_witness :
    naics_year 2010 = some "NAICS2007" ∧
    naics_year 2013 = some "NAICS2012" :=
  ⟨(naics_year_vintage 2010).1 (by decide) (by decide),
   (naics_year_vintage 2013).2 (by decide) (by decide)⟩

/-- C2 counterexample: on the dataset with industry codes exactly
`{"00","11","113","1133","31-33"}`, `two_digit` with no selector keeps a
row whose code is outside `{"11","31-33"}` (namely `"00"`, which has two
characters), refuting "returns exactly the rows with codes
`{"11","31-33"}`". -/
theorem two_digit_five_codes_counterexample :
    ∃ t, two_digit fiveCodesData PyVal.vNone = Except.ok t ∧
      ∃ r ∈ t.rows, r.naics2012 ∉ (["11", "31-33"] : List String) := by
  refine ⟨⟨builtCols,
      [testRow "013" "00" 100 10, testRow "013" "11" 5 1,
       testRow "013" "31-33" 7 2]⟩,
    rfl, testRow "013" "00" 100 10, ?_, ?_⟩
  · decide
  · decide

/-- C2 amended: on a dataset whose industry codes are exactly
`{"00","11","113","1133","31-33"}`, `two_digit` with no selector returns
exactly the rows with codes in `{"00","11","31-33"}` — those whose code
has exactly two characters or contains `-` — and each of those three
codes occurs in the result. -/
theorem two_digit_five_codes (d : Dataset) (t : Dataset)
    (hsub : ∀ r ∈ d.rows,
      r.naics2012 ∈ (["00", "11", "113", "1133", "31-33"] : List String))
    (hall : ∀ c ∈ (["00", "11", "113", "1133", "31-33"] : List String),
      c ∈ d.rows.map Row.naics2012)
    (h : two_digit d PyVal.vNone = Except.ok t) :
    (∀ r : Row, r ∈ t.rows ↔
      r ∈ d.rows ∧ r.naics2012 ∈ (["00", "11", "31-33"] : List String)) ∧
    (∀ c ∈ (["00", "11", "31-33"] : List String),
      c ∈ t.rows.map Row.naics2012) := by
  have h0 : two_digit d PyVal.vNone =
      Except.ok ⟨d.cols, d.rows.filter twoDigitPred⟩ := rfl
  rw [h0] at h
  injection h with h
  have et : t = ⟨d.cols, d.rows.filter twoDigitPred⟩ := h.symm
  subst et
  have hchar : ∀ r ∈ d.rows,
      (twoDigitPred r = true ↔
        r.naics2012 ∈ (["00", "11", "31-33"] : List String)) := by
    intro r hr
    have hc := hsub r hr
    simp only [List.mem_cons, List.not_mem_nil, or_false] at hc
    rcases hc with h' | h' | h' | h' | h' <;>
      simp only [twoDigitPred] <;> rw [h'] <;> decide
  refine ⟨?_, ?_⟩
  · intro r
    constructor
    · intro hr
      have hm := List.mem_filter.mp hr
      exact ⟨hm.1, (hchar r hm.1).mp hm.2⟩
    · intro hyp
      exact List.mem_filter.mpr ⟨hyp.1, (hchar r hyp.1).mpr hyp.2⟩
  · intro c hc
    have hc5 : c ∈ (["00", "11", "113", "1133", "31-33"] : List String) := by
      simp only [List.mem_cons, List.not_mem_nil, or_false] at hc ⊢
      rcases hc with h' | h' | h' <;> simp [h']
    obtain ⟨r, hr, hrc⟩ := List.mem_map.mp (hall c hc5)
    refine List.mem_map.mpr ⟨r, List.mem_filter.mpr ⟨hr, ?_⟩, hrc⟩
    exact (hchar r hr).mpr (by rw [hrc]; exact hc)

/-- The frame `two_digit` returns on `fiveCodesData`. -/
def twoDigitResult : Dataset :=
  ⟨builtCols,
   [testRow "013" "00" 100 10, testRow "013" "11" 5 1,
    testRow "013" "31-33" 7 2]⟩

/-- C2 amended witness: the amended description instantiated on the
concrete five-code dataset. -/
theorem two_digit_five_codes_witness :
    (∀ r : Row, r ∈ twoDigitResult.rows ↔
      r ∈ fiveCodesData.rows ∧
        r.naics2012 ∈ (["00", "11", "31-33"] : List String)) ∧
    (∀ c ∈ (["00", "11", "31-33"] : List String),
      c ∈ twoDigitResult.rows.map Row.naics2012) :=
  two_digit_five_codes fiveCodesData twoDigitResult (by decide) (by decide)
    rfl

/-- Characterisation of `total`'s output industry codes. -/
theorem total_map_codes (d : Dataset) :
    (total d).map TotalRow.naics2012 = (d.rows.map Row.naics2012).dedup := by
  simp only [total, List.map_map]
  exact List.map_id _

/-- C3: `total` returns exactly one row per industry code occurring in the
frame — none for absent codes — carrying the sums of employment and
establishments over the rows with that code; on the two-row `"11"` frame
with employment `{5,7}` and establishments `{1,2}` it returns the single
row `("11", 12, 3)`. -/
theorem total_spec (d : Dataset) :
    ((total d).map TotalRow.naics2012).Nodup ∧
    (∀ c : String, c ∈ (total d).map TotalRow.naics2012 ↔
      c ∈ d.rows.map Row.naics2012) ∧
    (∀ t ∈ total d,
      t.emp = empSum d.rows t.naics2012 ∧
      t.estab = estabSum d.rows t.naics2012) ∧
    total twoCountyData = [⟨"11", 12, 3⟩] := by
  refine ⟨?_, ?_, ?_, ?_⟩
  · rw [total_map_codes]
    exact List.nodup_dedup _
  · intro c
    rw [total_map_codes]
    exact List.mem_dedup
  · intro t ht
    obtain ⟨c, hc, hct⟩ := List.mem_map.mp ht
    subst hct
    exact ⟨rfl, rfl⟩
  · decide

/-- C3 witness: `total` evaluated on the concrete two-row `"11"` frame. -/
theorem total_spec_witness :
    total twoCountyData = [⟨"11", 12, 3⟩] ∧
    ("11" ∈ (total twoCountyData).map TotalRow.naics2012 ↔
      "11" ∈ twoCountyData.rows.map Row.naics2012) :=
  ⟨(total_spec twoCountyData).2.2.2, (total_spec twoCountyData).2.1 "11"⟩

/-- C4 counterexample: a set selector is rejected with `TypeError`
(`isinstance(county, list)` does not hold for a set), even though rows
matching its members exist, refuting "a list or set of strings returns the
member rows". -/
theorem get_county_set_counterexample :
    get_county twoCountyData (PyVal.vSet ["013"]) =
      Except.error PyError.typeError ∧
    twoCountyData.rows.filter
      (fun r => (["013"] : List String).contains r.county) ≠ [] := by
  exact ⟨rfl, by decide⟩

/-- C4 amended: a string selector returns exactly the rows whose county
equals it, a list selector exactly the rows whose county is a member, both
with the input's columns; `TypeError` is raised iff the selector is
neither a string nor a list (`None`, a set, or a number). -/
theorem get_county_spec (d : Dataset) (v : PyVal) :
    (∀ s, v = PyVal.vStr s →
      get_county d v =
        Except.ok ⟨d.cols, d.rows.filter fun r => r.county == s⟩) ∧
    (∀ l, v = PyVal.vList l →
      get_county d v =
        Except.ok ⟨d.cols, d.rows.filter fun r => l.contains r.county⟩) ∧
    (get_county d v = Except.error PyError.typeError ↔
      v = PyVal.vNone ∨ (∃ l, v = PyVal.vSet l) ∨
        (∃ n, v = PyVal.vInt n)) := by
  refine ⟨?_, ?_, ?_⟩
  · intro s h
    subst h
    rfl
  · intro l h
    subst h
    rfl
  · cases v <;> simp [get_county]

/-- C4 amended witness: filtering the two-county frame by the string
`"013"`. -/
theorem get_county_spec_witness :
    get_county twoCountyData (PyVal.vStr "013") =
      Except.ok ⟨twoCountyData.cols,
        twoCountyData.rows.filter fun r => r.county == "013"⟩ :=
  (get_county_spec twoCountyData (PyVal.vStr "013")).1 "013" rfl

/-- C6 counterexample: a three-character code containing `-` is kept by
`three_digit` (its length is exactly 3), refuting "codes containing `-`
are excluded from both". -/
theorem three_digit_range_counterexample :
    ∃ t, three_digit rangeRowData PyVal.vNone = Except.ok t ∧
      ∃ r ∈ t.rows, containsDash r.naics2012 = true := by
  refine ⟨⟨builtCols, [testRow "013" "1-3" 4 1]⟩, rfl,
    testRow "013" "1-3" 4 1, ?_, ?_⟩
  · decide
  · decide

/-- C6 amended: with no selector, `three_digit` returns exactly the rows
whose code has exactly 3 characters or equals `"00"`, `four_digit` those
with exactly 4 characters or `"00"`; hence a code containing `-` survives
the three- (resp. four-) digit view only if its own length is exactly 3
(resp. 4) — standard range tokens such as `"31-33"` are excluded from
both. -/
theorem digit_filters_spec (d t₃ t₄ : Dataset)
    (h₃ : three_digit d PyVal.vNone = Except.ok t₃)
    (h₄ : four_digit d PyVal.vNone = Except.ok t₄) :
    (∀ r : Row, r ∈ t₃.rows ↔
      r ∈ d.rows ∧ (r.naics2012.length = 3 ∨ r.naics2012 = "00")) ∧
    (∀ r : Row, r ∈ t₄.rows ↔
      r ∈ d.rows ∧ (r.naics2012.length = 4 ∨ r.naics2012 = "00")) ∧
    (∀ r ∈ t₃.rows, containsDash r.naics2012 = true →
      r.naics2012.length = 3) ∧
    (∀ r ∈ t₄.rows, containsDash r.naics2012 = true →
      r.naics2012.length = 4) := by
  have e₃0 : three_digit d PyVal.vNone =
      Except.ok ⟨d.cols, d.rows.filter threeDigitPred⟩ := rfl
  rw [e₃0] at h₃
  injection h₃ with h₃
  have e₃ : t₃ = ⟨d.cols, d.rows.filter threeDigitPred⟩ := h₃.symm
  subst e₃
  have e₄0 : four_digit d PyVal.vNone =
      Except.ok ⟨d.cols, d.rows.filter fourDigitPred⟩ := rfl
  rw [e₄0] at h₄
  injection h₄ with h₄
  have e₄ : t₄ = ⟨d.cols, d.rows.filter fourDigitPred⟩ := h₄.symm
  subst e₄
  refine ⟨?_, ?_, ?_, ?_⟩
  · intro r
    rw [List.mem_filter]
    simp [threeDigitPred]
  · intro r
    rw [List.mem_filter]
    simp [fourDigitPred]
  · intro r hr hdash
    have hp := (List.mem_filter.mp hr).2
    simp only [threeDigitPred, Bool.or_eq_true, beq_iff_eq] at hp
    rcases hp with hlen | h00
    · exact hlen
    · rw [h00] at hdash
      exact absurd hdash (by decide)
  · intro r hr hdash
    have hp := (List.mem_filter.mp hr).2
    simp only [fourDigitPred, Bool.or_eq_true, beq_iff_eq] at hp
    rcases hp with hlen | h00
    · exact hlen
    · rw [h00] at hdash
      exact absurd hdash (by decide)

/-- The frame `three_digit` returns on `fiveCodesData`. -/
def threeDigitResult : Dataset :=
  ⟨builtCols, [testRow "013" "00" 100 10, testRow "013" "113" 3 1]⟩

/-- The frame `four_digit` returns on `fiveCodesData`. -/
def fourDigitResult : Dataset :=
  ⟨builtCols, [testRow "013" "00" 100 10, testRow "013" "1133" 2 1]⟩

/-- C6 amended witness: the digit-level characterisations instantiated on
the concrete five-code dataset. -/
theorem digit_filters_spec_witness :
    (∀ r : Row, r ∈ threeDigitResult.rows ↔
      r ∈ fiveCodesData.rows ∧
        (r.naics2012.length = 3 ∨ r.naics2012 = "00")) ∧
    (∀ r : Row, r ∈ fourDigitResult.rows ↔
      r ∈ fiveCodesData.rows ∧
        (r.naics2012.length = 4 ∨ r.naics2012 = "00")) ∧
    (∀ r ∈ threeDigitResult.rows, containsDash r.naics2012 = true →
      r.naics2012.length = 3) ∧
    (∀ r ∈ fourDigitResult.rows, containsDash r.naics2012 = true →
      r.naics2012.length = 4) :=
  digit_filters_spec fiveCodesData threeDigitResult fourDigitResult rfl rfl

/-- C10: a falsy county selector (empty string or empty list) makes each
digit-length method return the full digit-filtered frame, with no county
filtering and no `TypeError`, exactly as when no selector is given. -/
theorem falsy_selector_no_filter (d : Dataset) :
    two_digit d (PyVal.vStr "") =
      Except.ok ⟨d.cols, d.rows.filter twoDigitPred⟩ ∧
    two_digit d (PyVal.vList []) =
      Except.ok ⟨d.cols, d.rows.filter twoDigitPred⟩ ∧
    two_digit d PyVal.vNone =
      Except.ok ⟨d.cols, d.rows.filter twoDigitPred⟩ ∧
    three_digit d (PyVal.vStr "") =
      Except.ok ⟨d.cols, d.rows.filter threeDigitPred⟩ ∧
    three_digit d (PyVal.vList []) =
      Except.ok ⟨d.cols, d.rows.filter threeDigitPred⟩ ∧
    three_digit d PyVal.vNone =
      Except.ok ⟨d.cols, d.rows.filter threeDigitPred⟩ ∧
    four_digit d (PyVal.vStr "") =
      Except.ok ⟨d.cols, d.rows.filter fourDigitPred⟩ ∧
    four_digit d (PyVal.vList []) =
      Except.ok ⟨d.cols, d.rows.filter fourDigitPred⟩ ∧
    four_digit d PyVal.vNone =
      Except.ok ⟨d.cols, d.rows.filter fourDigitPred⟩ :=
  ⟨rfl, rfl, rfl, rfl, rfl, rfl, rfl, rfl, rfl⟩

end CBP
